import Mathlib

/-!
Shallow embedding of the OTP-gated submission workflow of the `doas`
repository: the three submission form controllers
(`JournalSubmissionForm`, `ResearchSubmissionForm`, `ProjectSubmissionForm`),
the subentity list editor they share, the server-side proxy routes, and the
`DepartmentSubmissionSection` mount guard.  Each definition is translated
from the corresponding source function; JavaScript string/number coercions
are modelled explicitly below.
-/

namespace Doas

/-- Common JavaScript whitespace characters recognised by `String.prototype.trim`
and by `Number` coercion (space, tab, LF, CR, VT, FF).  Exotic unicode space
code points are not modelled. -/
def isWhitespaceChar (c : Char) : Bool :=
  c = ' ' || c = '\t' || c = '\n' || c = '\r' || c.toNat = 11 || c.toNat = 12

def trimLeadingWS : List Char → List Char
  | [] => []
  | c :: cs => if isWhitespaceChar c then trimLeadingWS cs else c :: cs

def trimChars (cs : List Char) : List Char :=
  (trimLeadingWS ((trimLeadingWS cs).reverse)).reverse

/-- JavaScript `s.trim()`. -/
def jsTrim (s : String) : String :=
  ⟨trimChars s.data⟩

/-- JavaScript `s.trim() || undefined`: the trimmed string when non-empty,
absent (`none`) otherwise. -/
def optTrim (s : String) : Option String :=
  if jsTrim s = "" then none else some (jsTrim s)

/-- JavaScript `s || undefined` on a raw (untrimmed) string: absent exactly
when the string is empty. -/
def presentOr (s : String) : Option String :=
  if s = "" then none else some s

def charDigit (c : Char) : Option Nat :=
  if c.isDigit then some (c.toNat - 48) else none

/-- Value of a (possibly empty) run of characters read as base-10 digits;
`none` if any character is not a digit. -/
def digitsVal (cs : List Char) : Option Nat :=
  cs.foldl (fun acc c => acc.bind (fun n => (charDigit c).map (fun d => 10 * n + d))) (some 0)

/-- A finite JavaScript number in unnormalised decimal form, denoting
`mantissa / 10 ^ scale`.  (Using an explicit decimal pair instead of `ℚ`
keeps every definition kernel-computable.) -/
structure JsNum where
  mantissa : Int
  scale : Nat
deriving DecidableEq, Repr

/-- The natural number `n` as a `JsNum`. -/
def JsNum.ofNat (n : Nat) : JsNum :=
  ⟨(n : Int), 0⟩

/-- Unsigned decimal literal: `digits`, `digits.digits`, `.digits` or
`digits.`; anything else is NaN (`none`). -/
def unsignedJsNumber (cs : List Char) : Option JsNum :=
  match cs.span (fun c => c ≠ '.') with
  | (intPart, []) =>
    if intPart = [] then none else (digitsVal intPart).map JsNum.ofNat
  | (intPart, _dot :: frac) =>
    if intPart = [] ∧ frac = [] then none
    else (digitsVal intPart).bind (fun n => (digitsVal frac).map (fun f =>
      ⟨(n * 10 ^ frac.length + f : Nat), frac.length⟩))

/-- JavaScript `Number(s)` restricted to plain decimal literals: the input is
whitespace-trimmed, the empty string coerces to `0`, an optional sign is
followed by a decimal literal; `none` models NaN.  Hexadecimal, exponent and
`Infinity` forms are not modelled (no form field in this repository produces
them). -/
def jsNumber (s : String) : Option JsNum :=
  match trimChars s.data with
  | [] => some ⟨0, 0⟩
  | '+' :: rest => unsignedJsNumber rest
  | '-' :: rest => (unsignedJsNumber rest).map (fun q => ⟨-q.mantissa, q.scale⟩)
  | cs => unsignedJsNumber cs

/-- JavaScript `a || b` where `a` is an optional string field of a parsed
JSON body: falls through to `b` when the field is absent or the empty
string. -/
def jsStrOr (a : Option String) (b : String) : String :=
  match a with
  | some s => if s = "" then b else s
  | none => b

/-- JavaScript truthiness of an optional string (`!x` is true exactly when
the field is absent or empty). -/
def jsFalsy (s : Option String) : Bool :=
  match s with
  | none => true
  | some v => v = ""

/-! ## OTP session (hook `useSubmissionOtp`) -/

inductive OtpStatus where
  | idle
  | sending
  | sent
  | verifying
  | verified
  | error
deriving DecidableEq, Repr

structure OtpSession where
  status : OtpStatus
  sessionId : Option String
  error : Option String
deriving DecidableEq, Repr

/-- Modelled from the spec: the `useSubmissionOtp` hook itself is not under
`src/` (only its call sites are); per the spec, `reset()` "unconditionally
returns to `idle`, clearing `sessionId` and `error`". -/
def OtpSession.reset (_s : OtpSession) : OtpSession :=
  ⟨OtpStatus.idle, none, none⟩

/-- The email watch effect shared by the three forms
(`useEffect(() => { otp.reset(); setOtpCode(""); }, [submittedEmail, otp])`):
runs whenever the bound submitter email changes, resetting the OTP session
and clearing the pending OTP-code input. -/
def onEmailChange (otp : OtpSession) (_otpCode : String) : OtpSession × String :=
  (otp.reset, "")

/-! ## Gateway interaction and submit outcomes -/

/-- Result of the `fetch` to the proxy as the form controller observes it:
either the promise rejects (network error carrying a message), or a response
arrives with an HTTP status and a parsed JSON body of which only the
string-valued `detail` and `error` fields matter to the controllers
(`data?.detail || data?.error`); a body that fails to parse is `{}`, i.e.
both fields absent. -/
inductive GatewayResult where
  | netThrow (msg : String)
  | response (status : Nat) (detail : Option String) (error : Option String)
deriving DecidableEq, Repr

/-- `response.ok`: HTTP status in the 2xx range. -/
def statusOk (status : Nat) : Bool :=
  200 ≤ status && status < 300

/-- Outcome of one invocation of a form controller's `onSubmit`, with the
payload it posted when a network call was made. -/
inductive Outcome (P : Type) where
  | preconditionError (msg : String)
  | validationError (msg : String)
  | succeeded (payload : P)
  | failed (payload : P) (msg : String)
deriving DecidableEq, Repr

/-- Whether the outcome involved a network call (`fetch` to the proxy). -/
def Outcome.networkCalled {P : Type} : Outcome P → Bool
  | .preconditionError _ => false
  | .validationError _ => false
  | .succeeded _ => true
  | .failed _ _ => true

def Outcome.isSuccess {P : Type} : Outcome P → Bool
  | .succeeded _ => true
  | _ => false

/-- The payload posted to the proxy, when a network call was made. -/
def Outcome.sentPayload {P : Type} : Outcome P → Option P
  | .succeeded p => some p
  | .failed p _ => some p
  | .preconditionError _ => none
  | .validationError _ => none

/-- The error message surfaced on a failed gateway call. -/
def Outcome.failedMessage {P : Type} : Outcome P → Option String
  | .failed _ m => some m
  | _ => none

/-- Whether the gateway interaction counts as a failure for the controller:
the `fetch` promise rejected, or the response status is outside 2xx. -/
def GatewayResult.isFailure : GatewayResult → Bool
  | .netThrow _ => true
  | .response status _ _ => !statusOk status

/-- The OTP guard at the top of each `onSubmit` lets the submit proceed:
`status = verified` and `sessionId` truthy. -/
def OtpSession.passesGuard (o : OtpSession) : Prop :=
  o.status = OtpStatus.verified ∧ jsFalsy o.sessionId = false

/-- The message displayed on a failed submit attempt:
`data?.detail || data?.error || fallback` for a non-2xx response, the thrown
error's own message for a rejected `fetch`. -/
def failureMessage (fallback : String) : GatewayResult → String
  | .netThrow msg => msg
  | .response _ detail err => jsStrOr detail (jsStrOr err fallback)

/-! ## Journal submission form -/

structure AuthorForm where
  givenName : String
  familyName : String
  email : String
  affiliation : String
  country : String
deriving DecidableEq, Repr

structure JournalFormValues where
  title : String
  genre : String
  abstract : String
  keywords : String
  discipline : String
  year : String
  volume : String
  number : String
  pages : String
  submittedByName : String
  submittedByEmail : String
  authors : List AuthorForm
deriving DecidableEq, Repr

def journalDefaultValues : JournalFormValues :=
  { title := "", genre := "", abstract := "", keywords := "", discipline := ""
    year := "", volume := "", number := "", pages := ""
    submittedByName := "", submittedByEmail := ""
    authors := [{ givenName := "", familyName := "", email := "", affiliation := "", country := "" }] }

structure AuthorPayload where
  given_name : String
  family_name : Option String
  email : Option String
  affiliation : Option String
  country : Option String
deriving DecidableEq, Repr

/-- The author mapping step of `JournalSubmissionForm.onSubmit`. -/
def authorPayloadOf (a : AuthorForm) : AuthorPayload :=
  { given_name := jsTrim a.givenName
    family_name := optTrim a.familyName
    email := optTrim a.email
    affiliation := optTrim a.affiliation
    country := optTrim a.country }

structure JournalPayload where
  title : String
  genre : String
  abstract : String
  keywords : Option String
  discipline : Option String
  year : Option JsNum
  volume : Option JsNum
  number : Option JsNum
  pages : Option String
  submitted_by_name : String
  submitted_by_email : String
  department : String
  authors : List AuthorPayload
  otp_session : String
deriving DecidableEq, Repr

/-- Payload assembly of `JournalSubmissionForm.onSubmit` (the `payload`
object literal), given the already mapped-and-filtered author list. -/
def journalPayload (dept : String) (values : JournalFormValues) (sid : String)
    (authors : List AuthorPayload) : JournalPayload :=
  { title := jsTrim values.title
    genre := jsTrim values.genre
    abstract := jsTrim values.abstract
    keywords := optTrim values.keywords
    discipline := optTrim values.discipline
    year := jsNumber values.year
    volume := jsNumber values.volume
    number := jsNumber values.number
    pages := optTrim values.pages
    submitted_by_name := jsTrim values.submittedByName
    submitted_by_email := jsTrim values.submittedByEmail
    department := dept
    authors := authors
    otp_session := sid }

/-- Controller-local state touched by `JournalSubmissionForm.onSubmit`:
the react-hook-form values, the OTP session and the pending OTP-code input. -/
structure JournalState where
  values : JournalFormValues
  otp : OtpSession
  otpCode : String
deriving DecidableEq, Repr

/-- The map-and-filter over the author rows at the top of
`JournalSubmissionForm.onSubmit`: trim every subfield and keep the rows with
a non-empty `given_name`. -/
def journalAuthors (values : JournalFormValues) : List AuthorPayload :=
  (values.authors.map authorPayloadOf).filter (fun a => a.given_name ≠ "")

/-- `JournalSubmissionForm.onSubmit`, with the gateway's behaviour supplied
as an argument.  Returns the outcome together with the post-invocation
state. -/
def journalOnSubmit (dept : String) (st : JournalState) (gw : GatewayResult) :
    Outcome JournalPayload × JournalState :=
  if st.otp.status ≠ OtpStatus.verified ∨ jsFalsy st.otp.sessionId then
    (.preconditionError "Verify your campus email before submitting", st)
  else if journalAuthors st.values = [] then
    (.validationError "Add at least one author", st)
  else
    let payload := journalPayload dept st.values (st.otp.sessionId.getD "")
      (journalAuthors st.values)
    match gw with
    | .netThrow msg => (.failed payload msg, st)
    | .response status detail err =>
      if statusOk status then
        (.succeeded payload,
          { values := journalDefaultValues, otp := st.otp.reset, otpCode := "" })
      else
        (.failed payload (jsStrOr detail (jsStrOr err "Failed to submit article")), st)

/-! ## Research submission form -/

structure ParticipantForm where
  fullName : String
  participantType : String
  email : String
  role : String
deriving DecidableEq, Repr

structure ResearchFormValues where
  title : String
  abstract : String
  description : String
  researchType : String
  status : String
  principalInvestigator : String
  piEmail : String
  startDate : String
  endDate : String
  fundingAgency : String
  fundingAmount : String
  keywords : String
  methodology : String
  expectedOutcomes : String
  publicationsUrl : String
  projectUrl : String
  githubUrl : String
  submittedByName : String
  submittedByEmail : String
  participants : List ParticipantForm
deriving DecidableEq, Repr

def researchDefaultValues : ResearchFormValues :=
  { title := "", abstract := "", description := ""
    researchType := "applied", status := "proposed"
    principalInvestigator := "", piEmail := "", startDate := "", endDate := ""
    fundingAgency := "", fundingAmount := "", keywords := "", methodology := ""
    expectedOutcomes := "", publicationsUrl := "", projectUrl := "", githubUrl := ""
    submittedByName := "", submittedByEmail := ""
    participants := [{ fullName := "", participantType := "student", email := "", role := "Researcher" }] }

structure ParticipantPayload where
  full_name : String
  participant_type : String
  email : Option String
  role : Option String
  department : String
deriving DecidableEq, Repr

/-- The participant mapping step of `ResearchSubmissionForm.onSubmit`. -/
def participantPayloadOf (dept : String) (p : ParticipantForm) : ParticipantPayload :=
  { full_name := jsTrim p.fullName
    participant_type := p.participantType
    email := optTrim p.email
    role := optTrim p.role
    department := dept }

structure ResearchPayload where
  title : String
  abstract : String
  description : String
  research_type : String
  status : String
  principal_investigator : String
  pi_email : String
  start_date : Option String
  end_date : Option String
  funding_agency : Option String
  funding_amount : Option JsNum
  keywords : Option String
  methodology : Option String
  expected_outcomes : Option String
  publications_url : Option String
  project_url : Option String
  github_url : Option String
  submitted_by_name : String
  submitted_by_email : String
  department : String
  participants : List ParticipantPayload
  otp_session : String
deriving DecidableEq, Repr

/-- Payload assembly of `ResearchSubmissionForm.onSubmit`. -/
def researchPayload (dept : String) (values : ResearchFormValues) (sid : String)
    (participants : List ParticipantPayload) : ResearchPayload :=
  { title := jsTrim values.title
    abstract := jsTrim values.abstract
    description := jsTrim values.description
    research_type := values.researchType
    status := values.status
    principal_investigator := jsTrim values.principalInvestigator
    pi_email := jsTrim values.piEmail
    start_date := presentOr values.startDate
    end_date := presentOr values.endDate
    funding_agency := optTrim values.fundingAgency
    funding_amount := jsNumber values.fundingAmount
    keywords := optTrim values.keywords
    methodology := optTrim values.methodology
    expected_outcomes := optTrim values.expectedOutcomes
    publications_url := optTrim values.publicationsUrl
    project_url := optTrim values.projectUrl
    github_url := optTrim values.githubUrl
    submitted_by_name := jsTrim values.submittedByName
    submitted_by_email := jsTrim values.submittedByEmail
    department := dept
    participants := participants
    otp_session := sid }

structure ResearchState where
  values : ResearchFormValues
  otp : OtpSession
  otpCode : String
deriving DecidableEq, Repr

/-- The map-and-filter over the participant rows at the top of
`ResearchSubmissionForm.onSubmit`: keep the rows with a non-empty trimmed
`full_name`. -/
def researchParticipants (dept : String) (values : ResearchFormValues) :
    List ParticipantPayload :=
  (values.participants.map (participantPayloadOf dept)).filter (fun p => p.full_name ≠ "")

/-- `ResearchSubmissionForm.onSubmit`.  Note: unlike the journal and project
forms, there is no guard rejecting an empty filtered participant list. -/
def researchOnSubmit (dept : String) (st : ResearchState) (gw : GatewayResult) :
    Outcome ResearchPayload × ResearchState :=
  if st.otp.status ≠ OtpStatus.verified ∨ jsFalsy st.otp.sessionId then
    (.preconditionError "Verify your campus email before submitting", st)
  else
    let payload := researchPayload dept st.values (st.otp.sessionId.getD "")
      (researchParticipants dept st.values)
    match gw with
    | .netThrow msg => (.failed payload msg, st)
    | .response status detail err =>
      if statusOk status then
        (.succeeded payload,
          { values := researchDefaultValues, otp := st.otp.reset, otpCode := "" })
      else
        (.failed payload (jsStrOr detail (jsStrOr err "Failed to submit research")), st)

/-! ## Project submission form -/

structure ProjectMemberForm where
  fullName : String
  rollNumber : String
  email : String
  role : String
deriving DecidableEq, Repr

structure ProjectFormValues where
  title : String
  abstract : String
  description : String
  projectType : String
  supervisorName : String
  supervisorEmail : String
  startDate : String
  endDate : String
  academicYear : String
  githubUrl : String
  demoUrl : String
  technologiesUsed : String
  submittedByName : String
  submittedByEmail : String
  members : List ProjectMemberForm
deriving DecidableEq, Repr

def projectDefaultValues : ProjectFormValues :=
  { title := "", abstract := "", description := "", projectType := "final_year"
    supervisorName := "", supervisorEmail := "", startDate := "", endDate := ""
    academicYear := "", githubUrl := "", demoUrl := "", technologiesUsed := ""
    submittedByName := "", submittedByEmail := ""
    members := [{ fullName := "", rollNumber := "", email := "", role := "Team Member" }] }

structure MemberPayload where
  full_name : String
  roll_number : String
  email : Option String
  role : Option String
deriving DecidableEq, Repr

/-- The team-member mapping step of `ProjectSubmissionForm.onSubmit`. -/
def memberPayloadOf (m : ProjectMemberForm) : MemberPayload :=
  { full_name := jsTrim m.fullName
    roll_number := jsTrim m.rollNumber
    email := optTrim m.email
    role := optTrim m.role }

structure ProjectPayload where
  title : String
  abstract : String
  description : String
  project_type : String
  supervisor_name : String
  supervisor_email : Option String
  start_date : Option String
  end_date : Option String
  academic_year : Option String
  github_url : Option String
  demo_url : Option String
  technologies_used : Option String
  submitted_by_name : String
  submitted_by_email : String
  department : String
  members : List MemberPayload
  otp_session : String
deriving DecidableEq, Repr

/-- Payload assembly of `ProjectSubmissionForm.onSubmit`. -/
def projectPayload (dept : String) (values : ProjectFormValues) (sid : String)
    (members : List MemberPayload) : ProjectPayload :=
  { title := jsTrim values.title
    abstract := jsTrim values.abstract
    description := jsTrim values.description
    project_type := values.projectType
    supervisor_name := jsTrim values.supervisorName
    supervisor_email := optTrim values.supervisorEmail
    start_date := presentOr values.startDate
    end_date := presentOr values.endDate
    academic_year := optTrim values.academicYear
    github_url := optTrim values.githubUrl
    demo_url := optTrim values.demoUrl
    technologies_used := optTrim values.technologiesUsed
    submitted_by_name := jsTrim values.submittedByName
    submitted_by_email := jsTrim values.submittedByEmail
    department := dept
    members := members
    otp_session := sid }

structure ProjectState where
  values : ProjectFormValues
  otp : OtpSession
  otpCode : String
deriving DecidableEq, Repr

/-- The map-and-filter over the team-member rows at the top of
`ProjectSubmissionForm.onSubmit`: keep the rows with both a non-empty
trimmed `full_name` and a non-empty trimmed `roll_number`. -/
def projectMembers (values : ProjectFormValues) : List MemberPayload :=
  (values.members.map memberPayloadOf).filter
    (fun m => m.full_name ≠ "" ∧ m.roll_number ≠ "")

/-- `ProjectSubmissionForm.onSubmit`. -/
def projectOnSubmit (dept : String) (st : ProjectState) (gw : GatewayResult) :
    Outcome ProjectPayload × ProjectState :=
  if st.otp.status ≠ OtpStatus.verified ∨ jsFalsy st.otp.sessionId then
    (.preconditionError "Verify your campus email before submitting", st)
  else if projectMembers st.values = [] then
    (.validationError "Add at least one team member", st)
  else
    let payload := projectPayload dept st.values (st.otp.sessionId.getD "")
      (projectMembers st.values)
    match gw with
    | .netThrow msg => (.failed payload msg, st)
    | .response status detail err =>
      if statusOk status then
        (.succeeded payload,
          { values := projectDefaultValues, otp := st.otp.reset, otpCode := "" })
      else
        (.failed payload (jsStrOr detail (jsStrOr err "Failed to submit project")), st)

/-! ## Subentity list editor

All three forms manage their subentity rows through `useFieldArray`,
starting from a one-element default list.  "Add" appends a fresh default
row; the "Remove" button for a row is rendered only under the guard
`fields.length > 1` (part_000 lines 258 and 646, ResearchSubmissionForm.tsx
line 351), so removal is unavailable — a no-op — when a single row remains.
-/

structure SubentityList (T : Type) where
  fields : List T
deriving DecidableEq, Repr

def SubentityList.append {T : Type} (l : SubentityList T) (t : T) : SubentityList T :=
  ⟨l.fields ++ [t]⟩

def SubentityList.remove {T : Type} (l : SubentityList T) (i : Nat) : SubentityList T :=
  if 1 < l.fields.length then ⟨l.fields.eraseIdx i⟩ else l

inductive SubOp (T : Type) where
  | append (t : T)
  | remove (i : Nat)

def SubentityList.applyOp {T : Type} (l : SubentityList T) : SubOp T → SubentityList T
  | .append t => l.append t
  | .remove i => l.remove i

def SubentityList.applyOps {T : Type} (l : SubentityList T) : List (SubOp T) → SubentityList T
  | [] => l
  | op :: ops => (l.applyOp op).applyOps ops

/-! ## Proxy routes -/

/-- Minimal JSON value model for the proxy boundary: the proxies never
inspect the bodies they carry, only construct `{}` and `{error: msg}`. -/
inductive Json where
  | null
  | str (s : String)
  | num (q : JsNum)
  | obj (fields : List (String × Json))

/-- Default-fallback resolution of the upstream base URL
(`API_BASE || "https://cdn.tcioe.edu.np"` in each route module). -/
def apiBaseUrl (apiBase : Option String) : String :=
  match apiBase with
  | some b => if b = "" then "https://cdn.tcioe.edu.np" else b
  | none => "https://cdn.tcioe.edu.np"

/-- The request body as `request.json()` sees it: either it parses to a
JSON payload or the parse throws. -/
inductive ReqBody where
  | invalid
  | valid (payload : Json)

/-- How the upstream `fetch` behaves: the promise rejects, or a response
arrives with a status and a body that parses to JSON (`some`) or does not
(`none`). -/
inductive UpstreamBehavior where
  | throws
  | responds (status : Nat) (body : Option Json)

structure ProxyResult where
  upstreamUrl : Option String
  sentBody : Option Json
  status : Nat
  body : Json

/-- The `POST` handler shared (modulo constants) by the proxy route modules:
parse the request body, forward it as JSON to `base ++ suffix`, relay the
upstream status and parsed body (substituting `{}` for a non-JSON body), and
convert any thrown failure into a 500 with `{error: failMsg}`. -/
def proxyPOST (base suffix failMsg : String) (req : ReqBody)
    (upstream : UpstreamBehavior) : ProxyResult :=
  match req with
  | .invalid => ⟨none, none, 500, .obj [("error", .str failMsg)]⟩
  | .valid payload =>
    match upstream with
    | .throws => ⟨some (base ++ suffix), some payload, 500, .obj [("error", .str failMsg)]⟩
    | .responds status body => ⟨some (base ++ suffix), some payload, status, body.getD (.obj [])⟩

/-- `src/app/api/submissions/journal/route.ts`. -/
def journalRoutePOST (base : String) : ReqBody → UpstreamBehavior → ProxyResult :=
  proxyPOST base "/api/v1/public/journal-mod/articles/submit/" "Unable to submit journal article"

/-- `src/app/api/submissions/research/route.ts`. -/
def researchRoutePOST (base : String) : ReqBody → UpstreamBehavior → ProxyResult :=
  proxyPOST base "/api/v1/public/research-mod/research/submit/" "Unable to submit research"

/-- Modelled from the spec: the project proxy route module is not under
`src/`; per the spec's table it posts to the project submission endpoint and
fails with `{error: "Unable to submit project"}`, with the same forwarding
shape as the journal and research routes. -/
def projectRoutePOST (base : String) : ReqBody → UpstreamBehavior → ProxyResult :=
  proxyPOST base "/api/v1/public/project-mod/projects/submit/" "Unable to submit project"

/-! ## Department submission section -/

/-- The slice of `DepartmentDetail` the mount guard reads; `uuid = none`
models an object whose `uuid` field is missing. -/
structure DepartmentDetail where
  uuid : Option String
deriving DecidableEq, Repr

/-- `DepartmentSubmissionSection`: returns `none` (renders nothing) when the
`department` prop is absent or its `uuid` is missing or empty
(`if (!department?.uuid) return null`); otherwise mounts the three forms,
each receiving the department — summarised here by the uuid they are
handed. -/
def DepartmentSubmissionSection (department : Option DepartmentDetail) : Option String :=
  match department with
  | none => none
  | some d =>
    match d.uuid with
    | none => none
    | some u => if u = "" then none else some u

/-! ## Helper lemmas -/

lemma guard_fires_of {o : OtpSession}
    (h : o.status ≠ OtpStatus.verified ∨ o.sessionId = none) :
    o.status ≠ OtpStatus.verified ∨ jsFalsy o.sessionId = true := by
  rcases h with h | h
  · exact Or.inl h
  · exact Or.inr (by simp [jsFalsy, h])

lemma guard_not_fires {o : OtpSession} (h : o.passesGuard) :
    ¬(o.status ≠ OtpStatus.verified ∨ jsFalsy o.sessionId = true) := by
  rcases h with ⟨h1, h2⟩
  intro hc
  rcases hc with hc | hc
  · exact hc h1
  · rw [h2] at hc
    exact Bool.false_ne_true hc

lemma journalOnSubmit_guard (dept : String) (st : JournalState) (gw : GatewayResult)
    (h : st.otp.status ≠ OtpStatus.verified ∨ st.otp.sessionId = none) :
    journalOnSubmit dept st gw =
      (.preconditionError "Verify your campus email before submitting", st) := by
  unfold journalOnSubmit
  rw [if_pos (guard_fires_of h)]

lemma researchOnSubmit_guard (dept : String) (st : ResearchState) (gw : GatewayResult)
    (h : st.otp.status ≠ OtpStatus.verified ∨ st.otp.sessionId = none) :
    researchOnSubmit dept st gw =
      (.preconditionError "Verify your campus email before submitting", st) := by
  unfold researchOnSubmit
  rw [if_pos (guard_fires_of h)]

lemma projectOnSubmit_guard (dept : String) (st : ProjectState) (gw : GatewayResult)
    (h : st.otp.status ≠ OtpStatus.verified ∨ st.otp.sessionId = none) :
    projectOnSubmit dept st gw =
      (.preconditionError "Verify your campus email before submitting", st) := by
  unfold projectOnSubmit
  rw [if_pos (guard_fires_of h)]

lemma journalOnSubmit_run (dept : String) (st : JournalState) (gw : GatewayResult)
    (hg : st.otp.passesGuard) (ha : journalAuthors st.values ≠ []) :
    journalOnSubmit dept st gw =
      (let payload := journalPayload dept st.values (st.otp.sessionId.getD "")
        (journalAuthors st.values)
      match gw with
      | .netThrow msg => (.failed payload msg, st)
      | .response status detail err =>
        if statusOk status then
          (.succeeded payload,
            { values := journalDefaultValues, otp := st.otp.reset, otpCode := "" })
        else
          (.failed payload (jsStrOr detail (jsStrOr err "Failed to submit article")), st)) := by
  unfold journalOnSubmit
  rw [if_neg (guard_not_fires hg), if_neg ha]

lemma researchOnSubmit_run (dept : String) (st : ResearchState) (gw : GatewayResult)
    (hg : st.otp.passesGuard) :
    researchOnSubmit dept st gw =
      (let payload := researchPayload dept st.values (st.otp.sessionId.getD "")
        (researchParticipants dept st.values)
      match gw with
      | .netThrow msg => (.failed payload msg, st)
      | .response status detail err =>
        if statusOk status then
          (.succeeded payload,
            { values := researchDefaultValues, otp := st.otp.reset, otpCode := "" })
        else
          (.failed payload (jsStrOr detail (jsStrOr err "Failed to submit research")), st)) := by
  unfold researchOnSubmit
  rw [if_neg (guard_not_fires hg)]

lemma projectOnSubmit_run (dept : String) (st : ProjectState) (gw : GatewayResult)
    (hg : st.otp.passesGuard) (hm : projectMembers st.values ≠ []) :
    projectOnSubmit dept st gw =
      (let payload := projectPayload dept st.values (st.otp.sessionId.getD "")
        (projectMembers st.values)
      match gw with
      | .netThrow msg => (.failed payload msg, st)
      | .response status detail err =>
        if statusOk status then
          (.succeeded payload,
            { values := projectDefaultValues, otp := st.otp.reset, otpCode := "" })
        else
          (.failed payload (jsStrOr detail (jsStrOr err "Failed to submit project")), st)) := by
  unfold projectOnSubmit
  rw [if_neg (guard_not_fires hg), if_neg hm]

lemma applyOp_length_pos {T : Type} (l : SubentityList T) (op : SubOp T)
    (h : 1 ≤ l.fields.length) : 1 ≤ (l.applyOp op).fields.length := by
  cases op with
  | append t =>
    simp [SubentityList.applyOp, SubentityList.append]
  | remove i =>
    simp only [SubentityList.applyOp, SubentityList.remove]
    by_cases hlen : 1 < l.fields.length
    · rw [if_pos hlen]
      simp only [List.length_eraseIdx]
      split <;> omega
    · rw [if_neg hlen]
      exact h

lemma applyOps_length_pos {T : Type} (l : SubentityList T) (ops : List (SubOp T))
    (h : 1 ≤ l.fields.length) : 1 ≤ (l.applyOps ops).fields.length := by
  induction ops generalizing l with
  | nil => exact h
  | cons op ops ih => exact ih _ (applyOp_length_pos l op h)

lemma journal_network_called (dept : String) (st : JournalState) (gw : GatewayResult)
    (h : (journalOnSubmit dept st gw).1.networkCalled = true) :
    st.otp.passesGuard ∧ journalAuthors st.values ≠ [] := by
  by_cases hg : st.otp.status ≠ OtpStatus.verified ∨ jsFalsy st.otp.sessionId = true
  · exfalso
    unfold journalOnSubmit at h
    rw [if_pos hg] at h
    simp [Outcome.networkCalled] at h
  · have h1 : st.otp.status = OtpStatus.verified := by
      by_contra hc
      exact hg (Or.inl hc)
    have h2 : jsFalsy st.otp.sessionId = false := by
      cases hb : jsFalsy st.otp.sessionId
      · rfl
      · exact absurd (Or.inr hb) hg
    by_cases ha : journalAuthors st.values = []
    · exfalso
      unfold journalOnSubmit at h
      rw [if_neg hg, if_pos ha] at h
      simp [Outcome.networkCalled] at h
    · exact ⟨⟨h1, h2⟩, ha⟩

lemma research_network_called (dept : String) (st : ResearchState) (gw : GatewayResult)
    (h : (researchOnSubmit dept st gw).1.networkCalled = true) :
    st.otp.passesGuard := by
  by_cases hg : st.otp.status ≠ OtpStatus.verified ∨ jsFalsy st.otp.sessionId = true
  · exfalso
    unfold researchOnSubmit at h
    rw [if_pos hg] at h
    simp [Outcome.networkCalled] at h
  · have h1 : st.otp.status = OtpStatus.verified := by
      by_contra hc
      exact hg (Or.inl hc)
    have h2 : jsFalsy st.otp.sessionId = false := by
      cases hb : jsFalsy st.otp.sessionId
      · rfl
      · exact absurd (Or.inr hb) hg
    exact ⟨h1, h2⟩

lemma project_network_called (dept : String) (st : ProjectState) (gw : GatewayResult)
    (h : (projectOnSubmit dept st gw).1.networkCalled = true) :
    st.otp.passesGuard ∧ projectMembers st.values ≠ [] := by
  by_cases hg : st.otp.status ≠ OtpStatus.verified ∨ jsFalsy st.otp.sessionId = true
  · exfalso
    unfold projectOnSubmit at h
    rw [if_pos hg] at h
    simp [Outcome.networkCalled] at h
  · have h1 : st.otp.status = OtpStatus.verified := by
      by_contra hc
      exact hg (Or.inl hc)
    have h2 : jsFalsy st.otp.sessionId = false := by
      cases hb : jsFalsy st.otp.sessionId
      · rfl
      · exact absurd (Or.inr hb) hg
    by_cases hm : projectMembers st.values = []
    · exfalso
      unfold projectOnSubmit at h
      rw [if_neg hg, if_pos hm] at h
      simp [Outcome.networkCalled] at h
    · exact ⟨⟨h1, h2⟩, hm⟩

lemma journalOnSubmit_validation (dept : String) (st : JournalState) (gw : GatewayResult)
    (hg : st.otp.passesGuard) (hz : journalAuthors st.values = []) :
    journalOnSubmit dept st gw = (.validationError "Add at least one author", st) := by
  unfold journalOnSubmit
  rw [if_neg (guard_not_fires hg), if_pos hz]

lemma projectOnSubmit_validation (dept : String) (st : ProjectState) (gw : GatewayResult)
    (hg : st.otp.passesGuard) (hz : projectMembers st.values = []) :
    projectOnSubmit dept st gw = (.validationError "Add at least one team member", st) := by
  unfold projectOnSubmit
  rw [if_neg (guard_not_fires hg), if_pos hz]

/-! ## Claim theorems -/

/-- C1: For every form controller (project, research, journal) and every
draft state, if the OTP session status is not `verified` (or its
`sessionId` is absent) when submit is invoked, then no network call is
issued and the attempt yields the precondition error, leaving all state
unchanged. -/
theorem submit_requires_verified_otp
    (dept : String) (gw : GatewayResult)
    (stJ : JournalState) (stR : ResearchState) (stP : ProjectState)
    (hJ : stJ.otp.status ≠ OtpStatus.verified ∨ stJ.otp.sessionId = none)
    (hR : stR.otp.status ≠ OtpStatus.verified ∨ stR.otp.sessionId = none)
    (hP : stP.otp.status ≠ OtpStatus.verified ∨ stP.otp.sessionId = none) :
    ((journalOnSubmit dept stJ gw).1.networkCalled = false
      ∧ (journalOnSubmit dept stJ gw).1 =
          .preconditionError "Verify your campus email before submitting"
      ∧ (journalOnSubmit dept stJ gw).2 = stJ)
    ∧ ((researchOnSubmit dept stR gw).1.networkCalled = false
      ∧ (researchOnSubmit dept stR gw).1 =
          .preconditionError "Verify your campus email before submitting"
      ∧ (researchOnSubmit dept stR gw).2 = stR)
    ∧ ((projectOnSubmit dept stP gw).1.networkCalled = false
      ∧ (projectOnSubmit dept stP gw).1 =
          .preconditionError "Verify your campus email before submitting"
      ∧ (projectOnSubmit dept stP gw).2 = stP) := by
  rw [journalOnSubmit_guard dept stJ gw hJ, researchOnSubmit_guard dept stR gw hR,
    projectOnSubmit_guard dept stP gw hP]
  exact ⟨⟨rfl, rfl, rfl⟩, ⟨rfl, rfl, rfl⟩, ⟨rfl, rfl, rfl⟩⟩

def sentJournalState : JournalState :=
  { values := journalDefaultValues
    otp := { status := OtpStatus.sent, sessionId := none, error := none }
    otpCode := "123456" }

def sentResearchState : ResearchState :=
  { values := researchDefaultValues
    otp := { status := OtpStatus.sent, sessionId := none, error := none }
    otpCode := "123456" }

def sentProjectState : ProjectState :=
  { values := projectDefaultValues
    otp := { status := OtpStatus.sent, sessionId := none, error := none }
    otpCode := "123456" }

/-- C1 witness: a submit attempt in state `sent` on each form is blocked. -/
theorem submit_requires_verified_otp_witness :
    (journalOnSubmit "dept" sentJournalState (.response 200 none none)).1.networkCalled = false
    ∧ (researchOnSubmit "dept" sentResearchState (.response 200 none none)).1.networkCalled = false
    ∧ (projectOnSubmit "dept" sentProjectState (.response 200 none none)).1.networkCalled = false := by
  have h := submit_requires_verified_otp "dept" (.response 200 none none)
    sentJournalState sentResearchState sentProjectState
    (Or.inr rfl) (Or.inr rfl) (Or.inr rfl)
  exact ⟨h.1.1, h.2.1.1, h.2.2.1⟩

/-- C4: For every state of the OtpSession, changing the bound submitter
email yields `status = idle` with `sessionId` and `error` cleared, and
clears the pending OTP-code input. -/
theorem email_change_resets_session (otp : OtpSession) (code : String) :
    (onEmailChange otp code).1.status = OtpStatus.idle
    ∧ (onEmailChange otp code).1.sessionId = none
    ∧ (onEmailChange otp code).1.error = none
    ∧ (onEmailChange otp code).2 = "" :=
  ⟨rfl, rfl, rfl, rfl⟩

/-- C5: Starting from the initial one-element list, no sequence of append
and remove operations drops the length below 1; remove is a no-op when at
most one element remains; and removal at an index keeps the remaining
elements in their relative order (`take i ++ drop (i+1)`). -/
theorem subentity_list_invariant :
    (∀ (T : Type) (t : T) (ops : List (SubOp T)),
      1 ≤ ((SubentityList.mk [t]).applyOps ops).fields.length)
    ∧ (∀ (T : Type) (l : SubentityList T) (i : Nat),
      l.fields.length ≤ 1 → l.remove i = l)
    ∧ (∀ (T : Type) (l : SubentityList T) (i : Nat), 1 < l.fields.length →
      (l.remove i).fields = l.fields.take i ++ l.fields.drop (i + 1)) := by
  refine ⟨?_, ?_, ?_⟩
  · intro T t ops
    exact applyOps_length_pos _ _ (by simp)
  · intro T l i h
    unfold SubentityList.remove
    rw [if_neg (by omega)]
  · intro T l i h
    unfold SubentityList.remove
    rw [if_pos h]
    exact List.eraseIdx_eq_take_drop_succ _ _

/-- C5 witness: concrete author-row edits on a singleton list. -/
theorem subentity_list_invariant_witness :
    1 ≤ (SubentityList.applyOps (SubentityList.mk [(7 : Nat)])
        [SubOp.remove 0, SubOp.append 8, SubOp.remove 1, SubOp.remove 0]).fields.length
    ∧ SubentityList.remove (SubentityList.mk [(7 : Nat)]) 0 = SubentityList.mk [7]
    ∧ (SubentityList.remove (SubentityList.mk [(7 : Nat), 8]) 0).fields =
        ([7, 8] : List Nat).take 0 ++ ([7, 8] : List Nat).drop 1 :=
  ⟨subentity_list_invariant.1 Nat 7 _,
   subentity_list_invariant.2.1 Nat _ 0 (by decide),
   subentity_list_invariant.2.2 Nat _ 0 (by decide)⟩

/-- C9: Every proxy route forwards a parsed request body verbatim to the
configured base URL plus its fixed suffix path, relays the upstream's exact
status and JSON body, substitutes `{}` for a non-JSON upstream body, and
converts every thrown failure (unparsable request body or rejected upstream
fetch) into a 500 with the entity-specific error envelope. -/
theorem proxy_routes_forward_and_relay
    (base : String) (payload body : Json) (status : Nat) (u : UpstreamBehavior) :
    (journalRoutePOST base (.valid payload) (.responds status (some body)) =
      ⟨some (base ++ "/api/v1/public/journal-mod/articles/submit/"), some payload, status, body⟩)
    ∧ (journalRoutePOST base (.valid payload) (.responds status none) =
      ⟨some (base ++ "/api/v1/public/journal-mod/articles/submit/"), some payload, status, .obj []⟩)
    ∧ (journalRoutePOST base (.valid payload) .throws =
      ⟨some (base ++ "/api/v1/public/journal-mod/articles/submit/"), some payload, 500,
        .obj [("error", .str "Unable to submit journal article")]⟩)
    ∧ (journalRoutePOST base .invalid u =
      ⟨none, none, 500, .obj [("error", .str "Unable to submit journal article")]⟩)
    ∧ (researchRoutePOST base (.valid payload) (.responds status (some body)) =
      ⟨some (base ++ "/api/v1/public/research-mod/research/submit/"), some payload, status, body⟩)
    ∧ (researchRoutePOST base (.valid payload) (.responds status none) =
      ⟨some (base ++ "/api/v1/public/research-mod/research/submit/"), some payload, status, .obj []⟩)
    ∧ (researchRoutePOST base (.valid payload) .throws =
      ⟨some (base ++ "/api/v1/public/research-mod/research/submit/"), some payload, 500,
        .obj [("error", .str "Unable to submit research")]⟩)
    ∧ (researchRoutePOST base .invalid u =
      ⟨none, none, 500, .obj [("error", .str "Unable to submit research")]⟩)
    ∧ (projectRoutePOST base (.valid payload) (.responds status (some body)) =
      ⟨some (base ++ "/api/v1/public/project-mod/projects/submit/"), some payload, status, body⟩)
    ∧ (projectRoutePOST base (.valid payload) (.responds status none) =
      ⟨some (base ++ "/api/v1/public/project-mod/projects/submit/"), some payload, status, .obj []⟩)
    ∧ (projectRoutePOST base (.valid payload) .throws =
      ⟨some (base ++ "/api/v1/public/project-mod/projects/submit/"), some payload, 500,
        .obj [("error", .str "Unable to submit project")]⟩)
    ∧ (projectRoutePOST base .invalid u =
      ⟨none, none, 500, .obj [("error", .str "Unable to submit project")]⟩) :=
  ⟨rfl, rfl, rfl, rfl, rfl, rfl, rfl, rfl, rfl, rfl, rfl, rfl⟩

/-- C10: `DepartmentSubmissionSection` renders nothing when the department
prop is absent or its `uuid` is missing or empty; whenever it does mount the
forms they receive the department's `uuid`, and every assembled payload
carries `department = department.uuid`. -/
theorem department_section_guard :
    (DepartmentSubmissionSection none = none)
    ∧ (∀ dd : DepartmentDetail,
        DepartmentSubmissionSection (some dd) = none ↔
          (dd.uuid = none ∨ dd.uuid = some ""))
    ∧ (∀ (dd : DepartmentDetail) (u : String),
        DepartmentSubmissionSection (some dd) = some u → dd.uuid = some u ∧ u ≠ "")
    ∧ (∀ (u sid : String) (jv : JournalFormValues) (as : List AuthorPayload),
        (journalPayload u jv sid as).department = u)
    ∧ (∀ (u sid : String) (rv : ResearchFormValues) (ps : List ParticipantPayload),
        (researchPayload u rv sid ps).department = u)
    ∧ (∀ (u sid : String) (pv : ProjectFormValues) (ms : List MemberPayload),
        (projectPayload u pv sid ms).department = u) := by
  refine ⟨rfl, ?_, ?_, fun _ _ _ _ => rfl, fun _ _ _ _ => rfl, fun _ _ _ _ => rfl⟩
  · intro dd
    rcases hdd : dd.uuid with _ | u
    · simp [DepartmentSubmissionSection, hdd]
    · by_cases hu : u = "" <;> simp [DepartmentSubmissionSection, hdd, hu]
  · intro dd u h
    rcases hdd : dd.uuid with _ | v
    · simp [DepartmentSubmissionSection, hdd] at h
    · by_cases hv : v = ""
      · simp [DepartmentSubmissionSection, hdd, hv] at h
      · simp only [DepartmentSubmissionSection, hdd, if_neg hv] at h
        injection h with h2
        rw [← h2]
        exact ⟨rfl, hv⟩

/-- C10 witness: a department with uuid `"dep-42"` mounts the forms with
that uuid. -/
theorem department_section_guard_witness :
    (DepartmentSubmissionSection (some ⟨some "dep-42"⟩)) = some "dep-42"
    ∧ (⟨some "dep-42"⟩ : DepartmentDetail).uuid = some "dep-42" ∧ "dep-42" ≠ "" :=
  ⟨by decide, department_section_guard.2.2.1 ⟨some "dep-42"⟩ "dep-42" (by decide)⟩

/-- C6: For every form controller, when the gateway call returns HTTP 2xx
the draft is reset to its default values, the OtpSession is reset to idle
(with `sessionId` and `error` cleared), and the pending OTP-code input is
cleared to the empty string. -/
theorem gateway_success_resets_state
    (dept : String) (status : Nat) (detail err : Option String)
    (stJ : JournalState) (stR : ResearchState) (stP : ProjectState)
    (hok : statusOk status = true)
    (hJ : (journalOnSubmit dept stJ (.response status detail err)).1.networkCalled = true)
    (hR : (researchOnSubmit dept stR (.response status detail err)).1.networkCalled = true)
    (hP : (projectOnSubmit dept stP (.response status detail err)).1.networkCalled = true) :
    ((journalOnSubmit dept stJ (.response status detail err)).1.isSuccess = true
      ∧ (journalOnSubmit dept stJ (.response status detail err)).2 =
          ⟨journalDefaultValues, ⟨OtpStatus.idle, none, none⟩, ""⟩)
    ∧ ((researchOnSubmit dept stR (.response status detail err)).1.isSuccess = true
      ∧ (researchOnSubmit dept stR (.response status detail err)).2 =
          ⟨researchDefaultValues, ⟨OtpStatus.idle, none, none⟩, ""⟩)
    ∧ ((projectOnSubmit dept stP (.response status detail err)).1.isSuccess = true
      ∧ (projectOnSubmit dept stP (.response status detail err)).2 =
          ⟨projectDefaultValues, ⟨OtpStatus.idle, none, none⟩, ""⟩) := by
  obtain ⟨hgJ, haJ⟩ := journal_network_called _ _ _ hJ
  have hgR := research_network_called _ _ _ hR
  obtain ⟨hgP, hmP⟩ := project_network_called _ _ _ hP
  rw [journalOnSubmit_run dept stJ _ hgJ haJ, researchOnSubmit_run dept stR _ hgR,
    projectOnSubmit_run dept stP _ hgP hmP]
  simp [hok, Outcome.isSuccess, OtpSession.reset]

def okJournalState : JournalState :=
  { values := { journalDefaultValues with
      title := "Edge AI", genre := "Original Article", abstract := "A study."
      submittedByName := "Ram Karki", submittedByEmail := "ram@tcioe.edu.np"
      authors := [{ givenName := "Ram", familyName := "Karki", email := "",
                    affiliation := "", country := "" }] }
    otp := { status := OtpStatus.verified, sessionId := some "sess-j", error := none }
    otpCode := "123456" }

def okResearchState : ResearchState :=
  { values := { researchDefaultValues with
      title := "Microgrids", principalInvestigator := "Dr. Rai", piEmail := "rai@tcioe.edu.np"
      submittedByName := "Sita Rai", submittedByEmail := "sita@tcioe.edu.np"
      participants := [{ fullName := "Hari", participantType := "student", email := "",
                         role := "Researcher" }] }
    otp := { status := OtpStatus.verified, sessionId := some "sess-r", error := none }
    otpCode := "123456" }

def okProjectState : ProjectState :=
  { values := { projectDefaultValues with
      title := "Robot Arm", supervisorName := "Prof. KC"
      submittedByName := "Gita KC", submittedByEmail := "gita@tcioe.edu.np"
      members := [{ fullName := "Gita", rollNumber := "075BCT001", email := "",
                    role := "Team Member" }] }
    otp := { status := OtpStatus.verified, sessionId := some "sess-p", error := none }
    otpCode := "123456" }

/-- C6 witness: concrete verified drafts submitted against a 201 response. -/
theorem gateway_success_resets_state_witness :
    statusOk 201 = true
    ∧ (journalOnSubmit "dept" okJournalState (.response 201 none none)).2 =
        ⟨journalDefaultValues, ⟨OtpStatus.idle, none, none⟩, ""⟩
    ∧ (researchOnSubmit "dept" okResearchState (.response 201 none none)).2 =
        ⟨researchDefaultValues, ⟨OtpStatus.idle, none, none⟩, ""⟩
    ∧ (projectOnSubmit "dept" okProjectState (.response 201 none none)).2 =
        ⟨projectDefaultValues, ⟨OtpStatus.idle, none, none⟩, ""⟩ := by
  have h := gateway_success_resets_state "dept" 201 none none
    okJournalState okResearchState okProjectState
    (by decide) (by decide) (by decide) (by decide)
  exact ⟨by decide, h.1.2, h.2.1.2, h.2.2.2⟩

def dupTitleGw : GatewayResult :=
  .response 400 (some "") (some "Duplicate title")

/-- C7 counterexample: an upstream 400 whose body has `detail` present but
equal to the empty string (`{detail: "", error: "Duplicate title"}`) is
displayed as "Duplicate title", not as the (present) `detail` field — the
code's `data?.detail || data?.error || fallback` skips a falsy `detail`. -/
theorem empty_detail_field_counterexample :
    (journalOnSubmit "dept" okJournalState dupTitleGw).1.failedMessage =
      some "Duplicate title"
    ∧ dupTitleGw = .response 400 (some "") (some "Duplicate title")
    ∧ some "Duplicate title" ≠ some "" := by
  refine ⟨by decide, rfl, by decide⟩

/-- C7(amended): For every form controller, when the gateway call fails
(non-2xx status or a thrown network error) the OtpSession is left
untouched, the draft is not reset and the pending OTP code is kept (the
whole controller state is unchanged, returning the user to editing), and
the displayed message is the upstream body's `detail` field when present
and non-empty, else its `error` field when present and non-empty, else the
generic per-entity fallback; for a thrown network error the displayed
message is the thrown error's own message. -/
theorem gateway_failure_preserves_state
    (dept : String) (gw : GatewayResult)
    (stJ : JournalState) (stR : ResearchState) (stP : ProjectState)
    (hfail : gw.isFailure = true)
    (hJ : (journalOnSubmit dept stJ gw).1.networkCalled = true)
    (hR : (researchOnSubmit dept stR gw).1.networkCalled = true)
    (hP : (projectOnSubmit dept stP gw).1.networkCalled = true) :
    ((journalOnSubmit dept stJ gw).2 = stJ
      ∧ (journalOnSubmit dept stJ gw).1.failedMessage =
          some (failureMessage "Failed to submit article" gw))
    ∧ ((researchOnSubmit dept stR gw).2 = stR
      ∧ (researchOnSubmit dept stR gw).1.failedMessage =
          some (failureMessage "Failed to submit research" gw))
    ∧ ((projectOnSubmit dept stP gw).2 = stP
      ∧ (projectOnSubmit dept stP gw).1.failedMessage =
          some (failureMessage "Failed to submit project" gw)) := by
  obtain ⟨hgJ, haJ⟩ := journal_network_called _ _ _ hJ
  have hgR := research_network_called _ _ _ hR
  obtain ⟨hgP, hmP⟩ := project_network_called _ _ _ hP
  rw [journalOnSubmit_run dept stJ _ hgJ haJ, researchOnSubmit_run dept stR _ hgR,
    projectOnSubmit_run dept stP _ hgP hmP]
  cases gw with
  | netThrow msg =>
    simp [failureMessage, Outcome.failedMessage]
  | response status detail err =>
    have hs : statusOk status = false := by
      simpa [GatewayResult.isFailure] using hfail
    simp [failureMessage, Outcome.failedMessage, hs]

/-- C7 witness: concrete failure (HTTP 400, `{detail: "Duplicate title"}`)
leaves each controller's state intact and surfaces the detail text. -/
theorem gateway_failure_preserves_state_witness :
    (GatewayResult.response 400 (some "Duplicate title") none).isFailure = true
    ∧ (journalOnSubmit "dept" okJournalState
        (.response 400 (some "Duplicate title") none)).2 = okJournalState
    ∧ (journalOnSubmit "dept" okJournalState
        (.response 400 (some "Duplicate title") none)).1.failedMessage =
        some "Duplicate title"
    ∧ (researchOnSubmit "dept" okResearchState
        (.response 400 (some "Duplicate title") none)).2 = okResearchState
    ∧ (projectOnSubmit "dept" okProjectState
        (.response 400 (some "Duplicate title") none)).2 = okProjectState := by
  have h := gateway_failure_preserves_state "dept"
    (.response 400 (some "Duplicate title") none)
    okJournalState okResearchState okProjectState
    (by decide) (by decide) (by decide) (by decide)
  exact ⟨by decide, h.1.1, by decide, h.2.1.1, h.2.2.1⟩

def blankParticipantResearchState : ResearchState :=
  { values := { researchDefaultValues with
      title := "Hydro Study", principalInvestigator := "Dr. Thapa"
      piEmail := "thapa@tcioe.edu.np"
      submittedByName := "Mina Thapa", submittedByEmail := "mina@tcioe.edu.np"
      participants := [{ fullName := "  ", participantType := "student", email := "",
                         role := "" }] }
    otp := { status := OtpStatus.verified, sessionId := some "sess-r2", error := none }
    otpCode := "123456" }

/-- C3 counterexample: the research form has no subentity-list guard — with
zero participants retaining a non-empty full name after trimming, the
submit still issues the network call (and succeeds on a 2xx response)
instead of failing with a validation error. -/
theorem research_has_no_participant_guard_counterexample :
    researchParticipants "dept" blankParticipantResearchState.values = []
    ∧ (researchOnSubmit "dept" blankParticipantResearchState
        (.response 201 none none)).1.networkCalled = true
    ∧ (researchOnSubmit "dept" blankParticipantResearchState
        (.response 201 none none)).1.isSuccess = true := by
  refine ⟨by decide, by decide, by decide⟩

/-- C3(amended): The journal and project controllers fail with a validation
error and issue no network call when zero subentities retain their required
identifying field after trimming; the research controller has no such
guard — it issues the network call with an empty `participants` list. -/
theorem subentity_guard_journal_project_only
    (dept : String) (gw : GatewayResult)
    (stJ : JournalState) (stP : ProjectState) (stR : ResearchState)
    (hgJ : stJ.otp.passesGuard) (hzJ : journalAuthors stJ.values = [])
    (hgP : stP.otp.passesGuard) (hzP : projectMembers stP.values = [])
    (hgR : stR.otp.passesGuard) (hzR : researchParticipants dept stR.values = []) :
    ((journalOnSubmit dept stJ gw).1 = .validationError "Add at least one author"
      ∧ (journalOnSubmit dept stJ gw).1.networkCalled = false
      ∧ (journalOnSubmit dept stJ gw).2 = stJ)
    ∧ ((projectOnSubmit dept stP gw).1 = .validationError "Add at least one team member"
      ∧ (projectOnSubmit dept stP gw).1.networkCalled = false
      ∧ (projectOnSubmit dept stP gw).2 = stP)
    ∧ ((researchOnSubmit dept stR gw).1.networkCalled = true
      ∧ (researchOnSubmit dept stR gw).1.sentPayload =
          some (researchPayload dept stR.values (stR.otp.sessionId.getD "") [])) := by
  rw [journalOnSubmit_validation dept stJ gw hgJ hzJ,
    projectOnSubmit_validation dept stP gw hgP hzP,
    researchOnSubmit_run dept stR gw hgR, hzR]
  refine ⟨⟨rfl, rfl, rfl⟩, ⟨rfl, rfl, rfl⟩, ?_⟩
  cases gw with
  | netThrow msg =>
    simp [Outcome.networkCalled, Outcome.sentPayload]
  | response status detail err =>
    by_cases hs : statusOk status <;>
      simp [hs, Outcome.networkCalled, Outcome.sentPayload]

def blankAuthorJournalState : JournalState :=
  { values := { journalDefaultValues with
      title := "Edge AI", genre := "Original Article", abstract := "A study."
      submittedByName := "Ram Karki", submittedByEmail := "ram@tcioe.edu.np" }
    otp := { status := OtpStatus.verified, sessionId := some "sess-j2", error := none }
    otpCode := "123456" }

def blankMemberProjectState : ProjectState :=
  { values := { projectDefaultValues with
      title := "Robot Arm", supervisorName := "Prof. KC"
      submittedByName := "Gita KC", submittedByEmail := "gita@tcioe.edu.np" }
    otp := { status := OtpStatus.verified, sessionId := some "sess-p2", error := none }
    otpCode := "123456" }

/-- C3 witness: default (blank) subentity rows under a verified session are
rejected by the journal and project forms, while the research form posts an
empty participant list. -/
theorem subentity_guard_journal_project_only_witness :
    (journalOnSubmit "dept" blankAuthorJournalState (.response 201 none none)).1 =
      .validationError "Add at least one author"
    ∧ (projectOnSubmit "dept" blankMemberProjectState (.response 201 none none)).1 =
      .validationError "Add at least one team member"
    ∧ (researchOnSubmit "dept" blankParticipantResearchState
        (.response 201 none none)).1.networkCalled = true := by
  have h := subentity_guard_journal_project_only "dept" (.response 201 none none)
    blankAuthorJournalState blankMemberProjectState blankParticipantResearchState
    (by constructor <;> decide) (by decide)
    (by constructor <;> decide) (by decide)
    (by constructor <;> decide) (by decide)
  exact ⟨h.1.1, h.2.1.1, h.2.2.1⟩

/-- Omit-when-blank semantics for an optional trimmed string field: the key
is absent when the raw value is empty after trimming, and is never present
as an empty string. -/
def omittedWhenBlank (raw : String) (field : Option String) : Prop :=
  (jsTrim raw = "" → field = none) ∧ field ≠ some ""

/-- Omit semantics for the date fields, which are tested untrimmed
(`values.startDate || undefined`): the key is absent exactly when the raw
value is the empty string. -/
def omittedWhenEmptyRaw (raw : String) (field : Option String) : Prop :=
  (raw = "" → field = none) ∧ field ≠ some ""

lemma omittedWhenBlank_optTrim (s : String) : omittedWhenBlank s (optTrim s) := by
  unfold omittedWhenBlank optTrim
  by_cases h : jsTrim s = ""
  · rw [if_pos h]
    exact ⟨fun _ => rfl, by simp⟩
  · rw [if_neg h]
    refine ⟨fun hc => absurd hc h, ?_⟩
    intro hc
    injection hc with hc2
    exact h hc2

lemma omittedWhenEmptyRaw_presentOr (s : String) :
    omittedWhenEmptyRaw s (presentOr s) := by
  unfold omittedWhenEmptyRaw presentOr
  by_cases h : s = ""
  · rw [if_pos h]
    exact ⟨fun _ => rfl, by simp⟩
  · rw [if_neg h]
    refine ⟨fun hc => absurd hc h, ?_⟩
    intro hc
    injection hc with hc2
    exact h hc2

/-- C2 counterexample: the `year` field of the journal draft is an optional
scalar field that is empty (hence empty after trimming), yet its key is
present in the normalized payload with value 0, because JavaScript
`Number("")` is `0`, not NaN. -/
theorem empty_numeric_field_included_counterexample :
    jsTrim okJournalState.values.year = ""
    ∧ (journalOnSubmit "dept" okJournalState
        (.response 201 none none)).1.sentPayload.map JournalPayload.year =
        some (some ⟨0, 0⟩) := by
  refine ⟨by decide, by decide⟩

/-- C2(amended): Every optional trimmed string field of the three payloads
is absent when empty after trimming and never present as an empty string;
the date fields are absent exactly when their raw value is empty (they are
not trimmed); every numeric field that fails to parse as a number is
absent; but a numeric field whose value is empty parses as 0 and is present
with value 0 rather than absent. -/
theorem optional_fields_omitted
    (dept sid : String)
    (jv : JournalFormValues) (as : List AuthorPayload)
    (rv : ResearchFormValues) (ps : List ParticipantPayload)
    (pv : ProjectFormValues) (ms : List MemberPayload)
    (a : AuthorForm) (p : ParticipantForm) (m : ProjectMemberForm) :
    (omittedWhenBlank jv.keywords (journalPayload dept jv sid as).keywords
      ∧ omittedWhenBlank jv.discipline (journalPayload dept jv sid as).discipline
      ∧ omittedWhenBlank jv.pages (journalPayload dept jv sid as).pages
      ∧ (jsNumber jv.year = none → (journalPayload dept jv sid as).year = none)
      ∧ (jsNumber jv.volume = none → (journalPayload dept jv sid as).volume = none)
      ∧ (jsNumber jv.number = none → (journalPayload dept jv sid as).number = none))
    ∧ (omittedWhenEmptyRaw rv.startDate (researchPayload dept rv sid ps).start_date
      ∧ omittedWhenEmptyRaw rv.endDate (researchPayload dept rv sid ps).end_date
      ∧ omittedWhenBlank rv.fundingAgency (researchPayload dept rv sid ps).funding_agency
      ∧ (jsNumber rv.fundingAmount = none →
          (researchPayload dept rv sid ps).funding_amount = none)
      ∧ omittedWhenBlank rv.keywords (researchPayload dept rv sid ps).keywords
      ∧ omittedWhenBlank rv.methodology (researchPayload dept rv sid ps).methodology
      ∧ omittedWhenBlank rv.expectedOutcomes
          (researchPayload dept rv sid ps).expected_outcomes
      ∧ omittedWhenBlank rv.publicationsUrl
          (researchPayload dept rv sid ps).publications_url
      ∧ omittedWhenBlank rv.projectUrl (researchPayload dept rv sid ps).project_url
      ∧ omittedWhenBlank rv.githubUrl (researchPayload dept rv sid ps).github_url)
    ∧ (omittedWhenBlank pv.supervisorEmail
          (projectPayload dept pv sid ms).supervisor_email
      ∧ omittedWhenEmptyRaw pv.startDate (projectPayload dept pv sid ms).start_date
      ∧ omittedWhenEmptyRaw pv.endDate (projectPayload dept pv sid ms).end_date
      ∧ omittedWhenBlank pv.academicYear (projectPayload dept pv sid ms).academic_year
      ∧ omittedWhenBlank pv.githubUrl (projectPayload dept pv sid ms).github_url
      ∧ omittedWhenBlank pv.demoUrl (projectPayload dept pv sid ms).demo_url
      ∧ omittedWhenBlank pv.technologiesUsed
          (projectPayload dept pv sid ms).technologies_used)
    ∧ (omittedWhenBlank a.familyName (authorPayloadOf a).family_name
      ∧ omittedWhenBlank a.email (authorPayloadOf a).email
      ∧ omittedWhenBlank a.affiliation (authorPayloadOf a).affiliation
      ∧ omittedWhenBlank a.country (authorPayloadOf a).country
      ∧ omittedWhenBlank p.email (participantPayloadOf dept p).email
      ∧ omittedWhenBlank p.role (participantPayloadOf dept p).role
      ∧ omittedWhenBlank m.email (memberPayloadOf m).email
      ∧ omittedWhenBlank m.role (memberPayloadOf m).role)
    ∧ jsNumber "" = some ⟨0, 0⟩ :=
  ⟨⟨omittedWhenBlank_optTrim _, omittedWhenBlank_optTrim _, omittedWhenBlank_optTrim _,
    fun h => h, fun h => h, fun h => h⟩,
   ⟨omittedWhenEmptyRaw_presentOr _, omittedWhenEmptyRaw_presentOr _,
    omittedWhenBlank_optTrim _, fun h => h, omittedWhenBlank_optTrim _,
    omittedWhenBlank_optTrim _, omittedWhenBlank_optTrim _, omittedWhenBlank_optTrim _,
    omittedWhenBlank_optTrim _, omittedWhenBlank_optTrim _⟩,
   ⟨omittedWhenBlank_optTrim _, omittedWhenEmptyRaw_presentOr _,
    omittedWhenEmptyRaw_presentOr _, omittedWhenBlank_optTrim _,
    omittedWhenBlank_optTrim _, omittedWhenBlank_optTrim _, omittedWhenBlank_optTrim _⟩,
   ⟨omittedWhenBlank_optTrim _, omittedWhenBlank_optTrim _, omittedWhenBlank_optTrim _,
    omittedWhenBlank_optTrim _, omittedWhenBlank_optTrim _, omittedWhenBlank_optTrim _,
    omittedWhenBlank_optTrim _, omittedWhenBlank_optTrim _⟩,
   by decide⟩

/-- C2 witness: on the default (all-empty) drafts, the optional string
fields come out absent while the empty numeric `year` comes out as 0. -/
theorem optional_fields_omitted_witness :
    (journalPayload "dept" journalDefaultValues "sess" []).keywords = none
    ∧ (researchPayload "dept" researchDefaultValues "sess" []).start_date = none
    ∧ (journalPayload "dept" journalDefaultValues "sess" []).year = some ⟨0, 0⟩ := by
  have h := optional_fields_omitted "dept" "sess" journalDefaultValues []
    researchDefaultValues [] projectDefaultValues []
    ⟨"", "", "", "", ""⟩ ⟨"", "student", "", ""⟩ ⟨"", "", "", ""⟩
  exact ⟨h.1.1.1 (by decide), h.2.1.1.1 rfl, by decide⟩

def scenarioJournalState : JournalState :=
  { values := { journalDefaultValues with
      title := "Edge AI", genre := "Original Article", abstract := "We study edge AI."
      authors := [{ givenName := "Ram", familyName := "", email := "",
                    affiliation := "", country := "" }] }
    otp := { status := OtpStatus.verified, sessionId := some "sess-1", error := none }
    otpCode := "123456" }

def scenarioJournalPayload : JournalPayload :=
  { title := "Edge AI", genre := "Original Article", abstract := "We study edge AI."
    keywords := none, discipline := none
    year := some ⟨0, 0⟩, volume := some ⟨0, 0⟩, number := some ⟨0, 0⟩
    pages := none, submitted_by_name := "", submitted_by_email := ""
    department := "dept-8"
    authors := [{ given_name := "Ram", family_name := none, email := none,
                  affiliation := none, country := none }]
    otp_session := "sess-1" }

/-- C8 counterexample: in the journal scenario the `year` key is not absent
from the payload — the empty year input coerces through `Number("") = 0` to
a present `year` of value 0. -/
theorem journal_scenario_year_present_counterexample :
    (journalOnSubmit "dept-8" scenarioJournalState (.response 201 none none)).1 =
      Outcome.succeeded scenarioJournalPayload
    ∧ scenarioJournalPayload.year = some ⟨0, 0⟩
    ∧ scenarioJournalPayload.year ≠ none := by
  refine ⟨by decide, rfl, by decide⟩

/-- C8(amended): the journal scenario (title "Edge AI", genre "Original
Article", non-empty abstract, one author "Ram", all other fields empty,
verified session "sess-1") produces a payload with
`authors = [{given_name: "Ram"}]` (all other author keys absent),
`otp_session = "sess-1"`, the keys `keywords` and `discipline` absent, and
the numeric keys `year`, `volume` and `number` present with value 0. -/
theorem journal_scenario_payload :
    (journalOnSubmit "dept-8" scenarioJournalState (.response 201 none none)).1 =
      Outcome.succeeded scenarioJournalPayload
    ∧ scenarioJournalPayload.authors =
        [{ given_name := "Ram", family_name := none, email := none,
           affiliation := none, country := none }]
    ∧ scenarioJournalPayload.otp_session = "sess-1"
    ∧ scenarioJournalPayload.keywords = none
    ∧ scenarioJournalPayload.discipline = none
    ∧ scenarioJournalPayload.pages = none
    ∧ scenarioJournalPayload.year = some ⟨0, 0⟩
    ∧ scenarioJournalPayload.volume = some ⟨0, 0⟩
    ∧ scenarioJournalPayload.number = some ⟨0, 0⟩ := by
  refine ⟨by decide, rfl, rfl, rfl, rfl, rfl, rfl, rfl, rfl⟩

end Doas
